import Mathlib

/-!
# Camera extension (`bococam`) and world-position helper (`bocokiddo`)

A shallow embedding of `bococam/src/bococam.cpp` and
`bocokiddo/src/bocokiddo.cpp`, with theorems about the camera state, the
coordinate conversions and the `remap` helper.

## Numbers

The C++ `float` values are read in exact arithmetic: a value is either a
rational number or *undefined*.  The only operation that produces an undefined
value from defined ones is a division by zero (where the machine would produce
an infinity or a NaN); every arithmetic operation on an undefined value is
undefined, and `fmin` skips an undefined operand.
Rounding and overflow of `float` are not modelled.  The conversion of a `float`
to the 32-bit `int` is modelled with its range.
-/

namespace BocoCam

/-! ## Exact-arithmetic floats -/

/-- A `float` in exact arithmetic: `some q` is the number `q`, `none` is the
undefined result of a division by zero. -/
abbrev Flt := Option ℚ

/-- C++ `-a`. -/
def fneg : Flt → Flt
  | some a => some (-a)
  | none => none

/-- C++ `a + b`. -/
def fadd : Flt → Flt → Flt
  | some a, some b => some (a + b)
  | _, _ => none

/-- C++ `a - b`. -/
def fsub : Flt → Flt → Flt
  | some a, some b => some (a - b)
  | _, _ => none

/-- C++ `a * b`. -/
def fmul : Flt → Flt → Flt
  | some a, some b => some (a * b)
  | _, _ => none

/-- C++ `a / b`; undefined when the divisor is zero. -/
def fdiv : Flt → Flt → Flt
  | some a, some b => if b = 0 then none else some (a / b)
  | _, _ => none

/-- C `fmin(a, b)`: the smaller of two numbers.  When one operand is not a
number, `fmin` returns the other operand, as C does for a NaN or a positive
infinity, the values that a non-negative window size divided by a zero display
size produces (a negative infinity is not told apart). -/
def fmin : Flt → Flt → Flt
  | some a, some b => some (min a b)
  | some a, none => some a
  | none, some b => some b
  | none, none => none

/-- `INT_MIN` of the 32-bit `int`. -/
def INT_MIN : Int := -2147483648

/-- `INT_MAX` of the 32-bit `int`. -/
def INT_MAX : Int := 2147483647

/-- The implicit `float` to `int` conversion of C++: truncation toward zero
when the truncated value fits the 32-bit `int`.  Outside that range C++ leaves
the conversion undefined; the model returns `INT_MIN`, the result of the x86-64
conversion instruction. -/
def floatToInt (q : ℚ) : Int :=
  if INT_MIN ≤ Int.tdiv q.num q.den ∧ Int.tdiv q.num q.den ≤ INT_MAX then
    Int.tdiv q.num q.den
  else INT_MIN

/-- The implicit `int` to `float` conversion. -/
def intToFloat (n : Int) : Flt := some (n : ℚ)

/-! ## Vectors and quaternions of the host math library (`dmVMath`) -/

/-- `dmVMath::Vector3` / `dmVMath::Point3`. -/
structure Vector3 where
  x : Flt
  y : Flt
  z : Flt

/-- `dmVMath::Quat`. -/
structure Quat where
  x : Flt
  y : Flt
  z : Flt
  w : Flt

/-- The constructor `Vector3(scalar)`: the uniform vector. -/
def Vector3.splat (s : Flt) : Vector3 := ⟨s, s, s⟩

/-- Modelled from the spec: `dmVMath::Conjugate` of the host math library, whose
source is not among the repository's files: the conjugate of a quaternion
negates its vector part. -/
def Conjugate (q : Quat) : Quat := ⟨fneg q.x, fneg q.y, fneg q.z, q.w⟩

/-- Modelled from the spec: `dmVMath::Rotate(quat, vec)` of the host math
library, whose source is not among the repository's files: the rotation of a
vector by a quaternion, the vector part of `quat * vec * conjugate(quat)`,
computed in the order of the library's scalar code. -/
def Rotate (quat : Quat) (vec : Vector3) : Vector3 :=
  let tmpX := fsub (fadd (fmul quat.w vec.x) (fmul quat.y vec.z)) (fmul quat.z vec.y)
  let tmpY := fsub (fadd (fmul quat.w vec.y) (fmul quat.z vec.x)) (fmul quat.x vec.z)
  let tmpZ := fsub (fadd (fmul quat.w vec.z) (fmul quat.x vec.y)) (fmul quat.y vec.x)
  let tmpW := fadd (fadd (fmul quat.x vec.x) (fmul quat.y vec.y)) (fmul quat.z vec.z)
  ⟨fadd (fsub (fadd (fmul tmpW quat.x) (fmul tmpX quat.w)) (fmul tmpY quat.z)) (fmul tmpZ quat.y),
   fadd (fsub (fadd (fmul tmpW quat.y) (fmul tmpY quat.w)) (fmul tmpZ quat.x)) (fmul tmpX quat.z),
   fadd (fsub (fadd (fmul tmpW quat.z) (fmul tmpZ quat.w)) (fmul tmpX quat.y)) (fmul tmpY quat.x)⟩

/-! ## The host scene graph -/

/-- `dmGameObject::HInstance`: a handle to a game object; `none` is `nullptr`. -/
abbrev HInstance := Option Nat

/-- Modelled from the spec: the scene-graph node behind a handle, reduced to the
transform data that the extensions read and write through the host interface
`getPosition`, `setPosition`, `setScale`, `getWorldPosition`,
`getWorldRotation`, `getWorldScale` (and `GetScale`, read by `InitCamera`). -/
structure GameObject where
  /-- `GetPosition` / `SetPosition`: the local position. -/
  position : Vector3
  /-- `GetScale` / `SetScale`: the local scale. -/
  scale : Vector3
  /-- `GetWorldPosition`. -/
  worldPosition : Vector3
  /-- `GetWorldRotation`. -/
  worldRotation : Quat
  /-- `GetWorldScale`. -/
  worldScale : Vector3

/-- The host scene graph: the game object behind every handle. -/
abbrev Scene := HInstance → GameObject

/-- Modelled from the spec: the host call
`dmGameObject::SetPosition(instance, position)`, which replaces the local
position of one game object. -/
def SetPosition (scene : Scene) (inst : HInstance) (position : Vector3) : Scene :=
  fun i => if i = inst then { scene i with position := position } else scene i

/-- Modelled from the spec: the host call
`dmGameObject::SetScale(instance, scale)`, which replaces the local scale of
one game object. -/
def SetScale (scene : Scene) (inst : HInstance) (scale : Vector3) : Scene :=
  fun i => if i = inst then { scene i with scale := scale } else scene i

/-! ## The global state of `bococam.cpp` -/

/-- `struct State`. -/
structure State where
  isActive : Bool := false
  isSuspend : Bool := false

/-- `struct Camera`, with its default member initialisers
(`DISPLAY_WIDTH = 1280`, `DISPLAY_HEIGHT = 720`, `HALF_MULTIPLIER = 0.5`). -/
structure Camera where
  mainCam : HInstance := none
  worldTarget : HInstance := none
  windowWidth : Flt := some 1280
  windowHeight : Flt := some 720
  halfWidth : Flt := fmul windowWidth (some (1 / 2))
  halfHeight : Flt := fmul windowHeight (some (1 / 2))
  zoom : Flt := some 1
  aspect : Flt := some 1
  invZoom : Flt := fdiv (some 1) (fmul zoom aspect)
  displayWidth : Nat := 1280
  displayHeight : Nat := 720

/-- The statics `g_Camera` and `g_State`, together with the host scene graph
that the handles point into. -/
structure Env where
  g_Camera : Camera
  g_State : State
  scene : Scene

/-- The state at program start: both statics default-initialised. -/
def Env.initial (scene : Scene) : Env := ⟨{}, {}, scene⟩

/-! ## The functions of `bococam.cpp` -/

/-- `Resize(width, height)`: the scale ratios are taken from the window size
held in `g_Camera` on entry; the `int` arguments are stored afterwards.  Both
callers pass `floatToInt` of a `float`, a value in the range of `int`, and the
body does no `int` arithmetic (the products with `HALF_MULTIPLIER` are
floating-point). -/
def Resize (width height : Int) (e : Env) : Env :=
  let displayScaleX := fdiv e.g_Camera.windowWidth (some (e.g_Camera.displayWidth : ℚ))
  let displayScaleY := fdiv e.g_Camera.windowHeight (some (e.g_Camera.displayHeight : ℚ))
  let aspect := fmin displayScaleX displayScaleY
  let scaleValue := fmul e.g_Camera.zoom aspect
  let cam : Camera :=
    { e.g_Camera with
      windowWidth := intToFloat width
      windowHeight := intToFloat height
      halfWidth := fmul (intToFloat width) (some (1 / 2))
      halfHeight := fmul (intToFloat height) (some (1 / 2))
      aspect := aspect
      invZoom := fdiv (some 1) scaleValue }
  let scene₁ := SetPosition e.scene cam.mainCam
    ⟨fmul (intToFloat width) (some (-(1 / 2))), fmul (intToFloat height) (some (-(1 / 2))), some 0⟩
  let scene₂ := SetScale scene₁ cam.worldTarget (Vector3.splat scaleValue)
  { e with g_Camera := cam, scene := scene₂ }

/-- The helper `remap(value, low1, high1, low2, high2)`. -/
def remap (value low1 high1 low2 high2 : Flt) : Flt :=
  fadd low2 (fdiv (fmul (fsub value low1) (fsub high2 low2)) (fsub high1 low1))

/-- `init_camera(cam, world, width, height)`. -/
def InitCamera (cam world : HInstance) (width height : ℚ) (e : Env) : Env :=
  let c₁ : Camera := { e.g_Camera with windowWidth := some width, windowHeight := some height }
  let c₂ : Camera := { c₁ with mainCam := cam, worldTarget := world }
  let c₃ : Camera := { c₂ with zoom := (e.scene world).scale.x }
  Resize (floatToInt width) (floatToInt height)
    { e with g_Camera := c₃, g_State := { e.g_State with isActive := true } }

/-- `zoom(zoom)`. -/
def Zoom (zoom : ℚ) (e : Env) : Env :=
  { e with
    g_Camera := { e.g_Camera with zoom := some zoom }
    scene := SetScale e.scene e.g_Camera.worldTarget (Vector3.splat (some zoom)) }

/-- `release_camera()`. -/
def ReleaseCamera (e : Env) : Env :=
  { e with
    g_Camera := { e.g_Camera with mainCam := none, worldTarget := none }
    g_State := { e.g_State with isActive := false } }

/-- `resize(width, height)`. -/
def ResizeCamera (width height : ℚ) (e : Env) : Env :=
  Resize (floatToInt width) (floatToInt height)
    { e with g_Camera := { e.g_Camera with windowWidth := some width, windowHeight := some height } }

/-- `screen_to_world(point)`; `none` is the Lua `nil`. -/
def ScreenToWorld (e : Env) (out : Vector3) : Option Vector3 :=
  if !e.g_State.isActive then none
  else
    let invZoomHalfWidth := fmul e.g_Camera.invZoom e.g_Camera.halfWidth
    let invZoomHalfHeight := fmul e.g_Camera.invZoom e.g_Camera.halfHeight
    let screenX := remap out.x (fneg e.g_Camera.halfWidth) e.g_Camera.halfWidth
      (fneg invZoomHalfWidth) invZoomHalfWidth
    let screenY := remap out.y (fneg e.g_Camera.halfHeight) e.g_Camera.halfHeight
      (fneg invZoomHalfHeight) invZoomHalfHeight
    some { out with x := screenX, y := screenY }

/-- `local_to_world(instance)`; `none` is the Lua `nil`. -/
def LocalToWorld (e : Env) (inst : HInstance) : Option Vector3 :=
  if !e.g_State.isActive then none
  else
    let rotation := (e.scene inst).worldRotation
    let position := (e.scene inst).worldPosition
    let scale := (e.scene inst).worldScale
    let localPosition := (e.scene inst).position
    let v₁ : Vector3 :=
      ⟨fmul localPosition.x scale.x, fmul localPosition.y scale.y, fmul localPosition.z scale.z⟩
    let v₂ := Rotate rotation v₁
    some ⟨fadd v₂.x position.x, fadd v₂.y position.y, fadd v₂.z position.z⟩

/-- `world_to_local(instance)`; `none` is the Lua `nil`. -/
def WorldToLocal (e : Env) (inst : HInstance) : Option Vector3 :=
  if !e.g_State.isActive then none
  else
    let rotation := (e.scene inst).worldRotation
    let position := (e.scene inst).worldPosition
    let scale := (e.scene inst).worldScale
    let localPosition := (e.scene inst).position
    let invQuat := Conjugate rotation
    let v₁ : Vector3 :=
      ⟨fadd localPosition.x position.x, fadd localPosition.y position.y,
       fadd localPosition.z position.z⟩
    let v₂ := Rotate invQuat v₁
    some ⟨fdiv v₂.x scale.x, fdiv v₂.y scale.y, fdiv v₂.z scale.z⟩

/-- `AppInitializeMyExtension`: the reference display size is read from the
host configuration (`display.width`, `display.height`, here the two `int`
arguments) and stored as `unsigned int`. -/
def AppInitializeMyExtension (displayWidth displayHeight : Int) (e : Env) : Env :=
  { e with
    g_Camera :=
      { e.g_Camera with
        displayWidth := (displayWidth % 2 ^ 32).toNat
        displayHeight := (displayHeight % 2 ^ 32).toNat } }

/-- The events of `dmExtension::Event` that `OnEventMyExtension` receives. -/
inductive Event where
  | activateApp
  | deactivateApp
  | iconifyApp
  | deiconifyApp
  | other

/-- `OnEventMyExtension`: only the suspended flag is touched. -/
def OnEventMyExtension (ev : Event) (e : Env) : Env :=
  match ev with
  | .deactivateApp => { e with g_State := { e.g_State with isSuspend := true } }
  | .deiconifyApp => { e with g_State := { e.g_State with isSuspend := false } }
  | _ => e

/-! ## Call sequences -/

/-- A state-changing call into the module: one of the Lua functions
`init_camera`, `resize`, `zoom`, `release_camera`, or an application event. -/
inductive Call where
  | init_camera (cam world : HInstance) (width height : ℚ)
  | resize (width height : ℚ)
  | zoom (zoom : ℚ)
  | release_camera
  | event (ev : Event)

/-- Whether the call is `init_camera`. -/
def Call.isInit : Call → Bool
  | .init_camera _ _ _ _ => true
  | _ => false

/-- Whether the call is `release_camera`. -/
def Call.isRelease : Call → Bool
  | .release_camera => true
  | _ => false

/-- Dispatch of one call (the table `Module_methods`). -/
def Call.apply : Call → Env → Env
  | .init_camera cam world w h => InitCamera cam world w h
  | .resize w h => ResizeCamera w h
  | .zoom z => Zoom z
  | .release_camera => ReleaseCamera
  | .event ev => OnEventMyExtension ev

/-- The state after a sequence of calls, the first call first. -/
def run (calls : List Call) (e : Env) : Env :=
  calls.foldl (fun s c => c.apply s) e

/-! ## The function of `bocokiddo.cpp` -/

/-- `get_world_position(instance)` of the module `bocokiddo`; it has no camera
state and reads the host scene graph only. -/
def GetWorldPosition (scene : Scene) (inst : HInstance) : Vector3 :=
  let rotation := (scene inst).worldRotation
  let position := (scene inst).worldPosition
  let scale := (scene inst).worldScale
  let localPosition := (scene inst).position
  let invQuat := Conjugate rotation
  let v₁ : Vector3 :=
    ⟨fadd localPosition.x position.x, fadd localPosition.y position.y,
     fadd localPosition.z position.z⟩
  let v₂ := Rotate invQuat v₁
  ⟨fdiv v₂.x scale.x, fdiv v₂.y scale.y, fdiv v₂.z scale.z⟩

/-! ## Vocabulary of the specification -/

/-- The vector with the given rational components. -/
def Vector3.ofRat (x y z : ℚ) : Vector3 := ⟨some x, some y, some z⟩

/-- The quaternion with the given rational components. -/
def Quat.ofRat (x y z w : ℚ) : Quat := ⟨some x, some y, some z, some w⟩

/-- The identity rotation. -/
def Quat.identity : Quat := Quat.ofRat 0 0 0 1

/-- Component-wise product `a ⊙ b`. -/
def Vector3.hmul (a b : Vector3) : Vector3 := ⟨fmul a.x b.x, fmul a.y b.y, fmul a.z b.z⟩

/-- Component-wise quotient `a ⊘ b`. -/
def Vector3.hdiv (a b : Vector3) : Vector3 := ⟨fdiv a.x b.x, fdiv a.y b.y, fdiv a.z b.z⟩

/-- Vector sum `a + b`. -/
def Vector3.add (a b : Vector3) : Vector3 := ⟨fadd a.x b.x, fadd a.y b.y, fadd a.z b.z⟩

/-- All three components are defined numbers. -/
def Vector3.isDefined (a : Vector3) : Bool := a.x.isSome && a.y.isSome && a.z.isSome

/-- The squared norm of a quaternion with rational components. -/
def quatNormSq (x y z w : ℚ) : ℚ := x * x + y * y + z * z + w * w

/-- A game object at the origin with unit scale and no rotation. -/
def unitObject : GameObject :=
  { position := Vector3.ofRat 0 0 0
    scale := Vector3.ofRat 1 1 1
    worldPosition := Vector3.ofRat 0 0 0
    worldRotation := Quat.identity
    worldScale := Vector3.ofRat 1 1 1 }

/-- A scene in which every handle is a `unitObject`. -/
def unitScene : Scene := fun _ => unitObject

/-- The scene in which every handle is the given game object. -/
def constScene (g : GameObject) : Scene := fun _ => g

/-- The state after `init_camera(cam, world, 1280, 720)` at program start, with
camera object `0` and world target `1` in the unit scene. -/
def startedEnv : Env := InitCamera (some 0) (some 1) 1280 720 (Env.initial unitScene)

/-! ## Arithmetic lemmas -/

@[simp] theorem fneg_some (a : ℚ) : fneg (some a) = some (-a) := rfl
@[simp] theorem fneg_none : fneg none = none := rfl
@[simp] theorem fadd_some (a b : ℚ) : fadd (some a) (some b) = some (a + b) := rfl
@[simp] theorem fsub_some (a b : ℚ) : fsub (some a) (some b) = some (a - b) := rfl
@[simp] theorem fmul_some (a b : ℚ) : fmul (some a) (some b) = some (a * b) := rfl
@[simp] theorem fmin_some (a b : ℚ) : fmin (some a) (some b) = some (min a b) := rfl
@[simp] theorem fadd_none_left (a : Flt) : fadd none a = none := rfl
@[simp] theorem fsub_none_left (a : Flt) : fsub none a = none := rfl
@[simp] theorem fmul_none_left (a : Flt) : fmul none a = none := rfl
@[simp] theorem fdiv_none_left (a : Flt) : fdiv none a = none := rfl
@[simp] theorem fmin_none_left (a : ℚ) : fmin none (some a) = some a := rfl
@[simp] theorem fadd_none_right (a : Flt) : fadd a none = none := by cases a <;> rfl
@[simp] theorem fsub_none_right (a : Flt) : fsub a none = none := by cases a <;> rfl
@[simp] theorem fmul_none_right (a : Flt) : fmul a none = none := by cases a <;> rfl
@[simp] theorem fdiv_none_right (a : Flt) : fdiv a none = none := by cases a <;> rfl
@[simp] theorem fmin_none_right (a : ℚ) : fmin (some a) none = some a := rfl
@[simp] theorem fmin_none_none : fmin none none = none := rfl

theorem fdiv_some (a b : ℚ) : fdiv (some a) (some b) = if b = 0 then none else some (a / b) := rfl

theorem fdiv_some_of_ne (a b : ℚ) (hb : b ≠ 0) : fdiv (some a) (some b) = some (a / b) := by
  simp [fdiv_some, hb]

@[simp] theorem fdiv_some_zero (a : ℚ) : fdiv (some a) (some 0) = none := by
  simp [fdiv_some]

/-- The conversion always yields a value in the range of `int`. -/
theorem floatToInt_range (q : ℚ) : INT_MIN ≤ floatToInt q ∧ floatToInt q ≤ INT_MAX := by
  unfold floatToInt
  split
  · assumption
  · simp [INT_MIN, INT_MAX]

/-! ## State lemmas -/

theorem run_nil (e : Env) : run [] e = e := rfl

theorem run_cons (c : Call) (cs : List Call) (e : Env) : run (c :: cs) e = run cs (c.apply e) := rfl

theorem run_append (cs ds : List Call) (e : Env) : run (cs ++ ds) e = run ds (run cs e) := by
  simp [run, List.foldl_append]

theorem Resize_isActive (w h : Int) (e : Env) :
    (Resize w h e).g_State.isActive = e.g_State.isActive := rfl

/-- The active flag after one call: set by `init_camera`, cleared by
`release_camera`, kept by every other call. -/
theorem apply_isActive (c : Call) (e : Env) :
    (c.apply e).g_State.isActive =
      if c.isInit then true else if c.isRelease then false else e.g_State.isActive := by
  cases c with
  | init_camera cam world w h => rfl
  | resize w h => rfl
  | zoom z => rfl
  | release_camera => rfl
  | event ev => cases ev <;> rfl

theorem run_isActive_of_no_init (cs : List Call) (e : Env)
    (h : ∀ c ∈ cs, c.isInit = false) (he : e.g_State.isActive = false) :
    (run cs e).g_State.isActive = false := by
  induction cs generalizing e with
  | nil => simpa [run_nil] using he
  | cons c cs ih =>
    rw [run_cons]
    apply ih
    · intro d hd
      exact h d (List.mem_cons_of_mem _ hd)
    · have hc := h c (List.mem_cons_self _ _)
      rw [apply_isActive, hc]
      simp [he]

theorem run_isActive_of_no_release (cs : List Call) (e : Env)
    (h : ∀ c ∈ cs, c.isRelease = false) (he : e.g_State.isActive = true) :
    (run cs e).g_State.isActive = true := by
  induction cs generalizing e with
  | nil => simpa [run_nil] using he
  | cons c cs ih =>
    rw [run_cons]
    apply ih
    · intro d hd
      exact h d (List.mem_cons_of_mem _ hd)
    · have hc := h c (List.mem_cons_self _ _)
      rw [apply_isActive, hc]
      simp [he]

theorem ScreenToWorld_eq_none_iff (e : Env) (p : Vector3) :
    ScreenToWorld e p = none ↔ e.g_State.isActive = false := by
  unfold ScreenToWorld
  cases e.g_State.isActive <;> simp

theorem LocalToWorld_eq_none_iff (e : Env) (i : HInstance) :
    LocalToWorld e i = none ↔ e.g_State.isActive = false := by
  unfold LocalToWorld
  cases e.g_State.isActive <;> simp

theorem WorldToLocal_eq_none_iff (e : Env) (i : HInstance) :
    WorldToLocal e i = none ↔ e.g_State.isActive = false := by
  unfold WorldToLocal
  cases e.g_State.isActive <;> simp

/-! ## C1: the inverse zoom -/

/-- C1 (defect in `Zoom`): `resize` and `init_camera` store
`invZoom = 1 / (zoom * aspect)`, but `zoom` overwrites `zoom` and keeps the old
`invZoom`.  After `init_camera(cam, world, 1280, 720)` and `zoom(2)` at program
start the state has `zoom = 2` and `aspect = 1`, both positive, and
`invZoom = 1`, whereas `1 / (zoom * aspect) = 1 / 2`. -/
theorem C1_zoom_keeps_stale_invZoom :
    (∀ (e : Env) (w h : ℚ),
      (ResizeCamera w h e).g_Camera.invZoom =
        fdiv (some 1)
          (fmul (ResizeCamera w h e).g_Camera.zoom (ResizeCamera w h e).g_Camera.aspect)) ∧
    (∀ (e : Env) (cam world : HInstance) (w h : ℚ),
      (InitCamera cam world w h e).g_Camera.invZoom =
        fdiv (some 1)
          (fmul (InitCamera cam world w h e).g_Camera.zoom
            (InitCamera cam world w h e).g_Camera.aspect)) ∧
    (run [Call.init_camera (some 0) (some 1) 1280 720, Call.zoom 2]
        (Env.initial unitScene)).g_Camera.zoom = some 2 ∧
    (run [Call.init_camera (some 0) (some 1) 1280 720, Call.zoom 2]
        (Env.initial unitScene)).g_Camera.aspect = some 1 ∧
    (run [Call.init_camera (some 0) (some 1) 1280 720, Call.zoom 2]
        (Env.initial unitScene)).g_Camera.invZoom = some 1 ∧
    fdiv (some 1)
      (fmul
        (run [Call.init_camera (some 0) (some 1) 1280 720, Call.zoom 2]
          (Env.initial unitScene)).g_Camera.zoom
        (run [Call.init_camera (some 0) (some 1) 1280 720, Call.zoom 2]
          (Env.initial unitScene)).g_Camera.aspect) = some (1 / 2) := by
  refine ⟨fun _ _ _ => rfl, fun _ _ _ _ _ => rfl, ?_, ?_, ?_, ?_⟩
  · simp [run, Call.apply, InitCamera, Zoom, Resize]
  · simp [run, Call.apply, InitCamera, Zoom, Resize, Env.initial, fdiv_some]
  · simp [run, Call.apply, InitCamera, Zoom, Resize, Env.initial, fdiv_some, unitScene,
      unitObject, Vector3.ofRat]
  · simp [run, Call.apply, InitCamera, Zoom, Resize, Env.initial, fdiv_some]

/-! ## C2: the inactive camera answers `nil` -/

/-- C2: each of `screen_to_world`, `local_to_world` and `world_to_local`
returns `nil` exactly when the camera is inactive.  They return `nil` for every
input after any calls from program start without an `init_camera` (`cs`) and
after a `release_camera` followed by calls without an `init_camera` (`post₁`);
they return a vector after an `init_camera` followed by calls without a
`release_camera` (`post₂`). -/
theorem C2_nil_iff_inactive (e : Env) (scene : Scene) (cs pre₁ post₁ pre₂ post₂ : List Call)
    (cam world : HInstance) (w h : ℚ) (p : Vector3) (i : HInstance)
    (hcs : ∀ c ∈ cs, c.isInit = false)
    (hpost₁ : ∀ c ∈ post₁, c.isInit = false)
    (hpost₂ : ∀ c ∈ post₂, c.isRelease = false) :
    ((ScreenToWorld e p = none ↔ e.g_State.isActive = false) ∧
      (LocalToWorld e i = none ↔ e.g_State.isActive = false) ∧
      (WorldToLocal e i = none ↔ e.g_State.isActive = false)) ∧
    (ScreenToWorld (run cs (Env.initial scene)) p = none ∧
      LocalToWorld (run cs (Env.initial scene)) i = none ∧
      WorldToLocal (run cs (Env.initial scene)) i = none) ∧
    (ScreenToWorld (run (pre₁ ++ Call.release_camera :: post₁) e) p = none ∧
      LocalToWorld (run (pre₁ ++ Call.release_camera :: post₁) e) i = none ∧
      WorldToLocal (run (pre₁ ++ Call.release_camera :: post₁) e) i = none) ∧
    ((ScreenToWorld (run (pre₂ ++ Call.init_camera cam world w h :: post₂) e) p).isSome = true ∧
      (LocalToWorld (run (pre₂ ++ Call.init_camera cam world w h :: post₂) e) i).isSome = true ∧
      (WorldToLocal (run (pre₂ ++ Call.init_camera cam world w h :: post₂) e) i).isSome
        = true) := by
  have h₀ : (run cs (Env.initial scene)).g_State.isActive = false :=
    run_isActive_of_no_init cs _ hcs rfl
  have h₁ : (run (pre₁ ++ Call.release_camera :: post₁) e).g_State.isActive = false := by
    rw [run_append, run_cons]
    exact run_isActive_of_no_init post₁ _ hpost₁ rfl
  have h₂ : (run (pre₂ ++ Call.init_camera cam world w h :: post₂) e).g_State.isActive
      = true := by
    rw [run_append, run_cons]
    exact run_isActive_of_no_release post₂ _ hpost₂ rfl
  refine ⟨⟨ScreenToWorld_eq_none_iff e p, LocalToWorld_eq_none_iff e i,
    WorldToLocal_eq_none_iff e i⟩, ⟨?_, ?_, ?_⟩, ⟨?_, ?_, ?_⟩, ⟨?_, ?_, ?_⟩⟩
  · exact (ScreenToWorld_eq_none_iff _ p).2 h₀
  · exact (LocalToWorld_eq_none_iff _ i).2 h₀
  · exact (WorldToLocal_eq_none_iff _ i).2 h₀
  · exact (ScreenToWorld_eq_none_iff _ p).2 h₁
  · exact (LocalToWorld_eq_none_iff _ i).2 h₁
  · exact (WorldToLocal_eq_none_iff _ i).2 h₁
  · rw [Option.isSome_iff_ne_none, Ne, ScreenToWorld_eq_none_iff, h₂]; simp
  · rw [Option.isSome_iff_ne_none, Ne, LocalToWorld_eq_none_iff, h₂]; simp
  · rw [Option.isSome_iff_ne_none, Ne, WorldToLocal_eq_none_iff, h₂]; simp

/-- Witness for C2: from program start `zoom(2)` leaves the camera inactive;
`release_camera` then `resize(800, 600)` leaves it inactive; `init_camera` then
`zoom(3)` leaves it active. -/
theorem C2_nil_iff_inactive_witness :
    (∀ c ∈ [Call.zoom 2], c.isInit = false) ∧
    (∀ c ∈ [Call.resize 800 600], c.isInit = false) ∧
    (∀ c ∈ [Call.zoom 3], c.isRelease = false) ∧
    ScreenToWorld (run [Call.zoom 2] (Env.initial unitScene)) (Vector3.ofRat 1 2 3) = none ∧
    LocalToWorld (run ([] ++ Call.release_camera :: [Call.resize 800 600]) startedEnv) (some 2)
      = none ∧
    (WorldToLocal
      (run ([] ++ Call.init_camera (some 0) (some 1) 1280 720 :: [Call.zoom 3]) startedEnv)
      (some 2)).isSome = true :=
  have h := C2_nil_iff_inactive startedEnv unitScene [Call.zoom 2] [] [Call.resize 800 600] []
    [Call.zoom 3] (some 0) (some 1) 1280 720 (Vector3.ofRat 1 2 3) (some 2)
    (by simp [Call.isInit]) (by simp [Call.isInit]) (by simp [Call.isRelease])
  ⟨by simp [Call.isInit], by simp [Call.isInit], by simp [Call.isRelease],
    h.2.1.1, h.2.2.1.2.1, h.2.2.2.2.2⟩

/-! ## C3 and C4: `remap` and the window corners -/

/-- The remap of `screen_to_world`: from `[-hw, hw]` to `[-k * hw, k * hw]` it
is the scaling by `k`, provided `hw ≠ 0`. -/
theorem remap_symmetric (v hw k : ℚ) (hne : hw ≠ 0) :
    remap (some v) (fneg (some hw)) (some hw) (fneg (fmul (some k) (some hw)))
      (fmul (some k) (some hw)) = some (v * k) := by
  have h2 : hw - -hw ≠ 0 := by
    intro h
    apply hne
    linarith
  simp only [remap, fneg_some, fmul_some, fsub_some, fdiv_some_of_ne _ _ h2, fadd_some]
  congr 1
  have h3 : hw - -hw = 2 * hw := by ring
  rw [h3]
  field_simp
  ring

/-- With an undefined target range the remap is undefined. -/
theorem remap_none_target (v l₁ h₁ : Flt) : remap v l₁ h₁ (fneg none) none = none := by
  simp [remap]

/-- With non-zero half-extents `screen_to_world` scales the x and y of a point
by the stored inverse zoom and keeps its z. -/
theorem ScreenToWorld_scales (e : Env) (x y hw hh : ℚ) (z : Flt)
    (hact : e.g_State.isActive = true)
    (hW : e.g_Camera.halfWidth = some hw) (hH : e.g_Camera.halfHeight = some hh)
    (hw0 : hw ≠ 0) (hh0 : hh ≠ 0) :
    ScreenToWorld e ⟨some x, some y, z⟩ =
      some ⟨fmul (some x) e.g_Camera.invZoom, fmul (some y) e.g_Camera.invZoom, z⟩ := by
  unfold ScreenToWorld
  rw [hact, hW, hH]
  cases e.g_Camera.invZoom with
  | none => simp only [fmul_none_left, fmul_none_right, remap_none_target]; rfl
  | some k =>
    have hx := remap_symmetric x hw k hw0
    have hy := remap_symmetric y hh k hh0
    simp only [fmul_some, fneg_some] at hx hy ⊢
    simp [hx, hy]

/-- C3 (as amended): for an active camera and a window size whose stored
half-extents are both non-zero, after `resize(w, h)` the corner
`(sx * halfWidth, sy * halfHeight, z)` with `sx, sy ∈ {+1, -1}` is mapped by
`screen_to_world` to `(sx * halfWidth * invZoom, sy * halfHeight * invZoom, z)`,
with the values stored by that resize. -/
theorem C3_resize_corners (e : Env) (w h sx sy : ℚ) (z : Flt)
    (hact : e.g_State.isActive = true)
    (hsx : sx = 1 ∨ sx = -1) (hsy : sy = 1 ∨ sy = -1)
    (hw : (ResizeCamera w h e).g_Camera.halfWidth ≠ some 0)
    (hh : (ResizeCamera w h e).g_Camera.halfHeight ≠ some 0) :
    ScreenToWorld (ResizeCamera w h e)
      ⟨fmul (some sx) (ResizeCamera w h e).g_Camera.halfWidth,
       fmul (some sy) (ResizeCamera w h e).g_Camera.halfHeight, z⟩ =
    some ⟨fmul (fmul (some sx) (ResizeCamera w h e).g_Camera.halfWidth)
            (ResizeCamera w h e).g_Camera.invZoom,
          fmul (fmul (some sy) (ResizeCamera w h e).g_Camera.halfHeight)
            (ResizeCamera w h e).g_Camera.invZoom, z⟩ := by
  have hact' : (ResizeCamera w h e).g_State.isActive = true := hact
  have hW : (ResizeCamera w h e).g_Camera.halfWidth
      = some ((floatToInt w : ℚ) * (1 / 2)) := rfl
  have hH : (ResizeCamera w h e).g_Camera.halfHeight
      = some ((floatToInt h : ℚ) * (1 / 2)) := rfl
  have hw' : ((floatToInt w : ℚ) * (1 / 2)) ≠ 0 := fun h0 => hw (by rw [hW, h0])
  have hh' : ((floatToInt h : ℚ) * (1 / 2)) ≠ 0 := fun h0 => hh (by rw [hH, h0])
  have key := fun x y => ScreenToWorld_scales (ResizeCamera w h e) x y _ _ z hact' hW hH hw' hh'
  rcases hsx with rfl | rfl <;> rcases hsy with rfl | rfl <;>
    rw [hW, hH, fmul_some, fmul_some, key]

/-- Witness for C3: the corner `(+halfWidth, -halfHeight, 5)` after
`resize(800, 600)` on the started camera. -/
theorem C3_resize_corners_witness :
    startedEnv.g_State.isActive = true ∧
    (ResizeCamera 800 600 startedEnv).g_Camera.halfWidth ≠ some 0 ∧
    (ResizeCamera 800 600 startedEnv).g_Camera.halfHeight ≠ some 0 ∧
    ScreenToWorld (ResizeCamera 800 600 startedEnv)
      ⟨fmul (some 1) (ResizeCamera 800 600 startedEnv).g_Camera.halfWidth,
       fmul (some (-1)) (ResizeCamera 800 600 startedEnv).g_Camera.halfHeight, some 5⟩ =
    some ⟨fmul (fmul (some 1) (ResizeCamera 800 600 startedEnv).g_Camera.halfWidth)
            (ResizeCamera 800 600 startedEnv).g_Camera.invZoom,
          fmul (fmul (some (-1)) (ResizeCamera 800 600 startedEnv).g_Camera.halfHeight)
            (ResizeCamera 800 600 startedEnv).g_Camera.invZoom, some 5⟩ :=
  have ha : startedEnv.g_State.isActive = true := rfl
  have hw : (ResizeCamera 800 600 startedEnv).g_Camera.halfWidth ≠ some 0 := by
    norm_num [ResizeCamera, Resize, intToFloat, floatToInt, INT_MIN, INT_MAX]
  have hh : (ResizeCamera 800 600 startedEnv).g_Camera.halfHeight ≠ some 0 := by
    norm_num [ResizeCamera, Resize, intToFloat, floatToInt, INT_MIN, INT_MAX]
  ⟨ha, hw, hh,
    C3_resize_corners startedEnv 800 600 1 (-1) (some 5) ha (Or.inl rfl) (Or.inr rfl) hw hh⟩

/-- C3 (counterexample): on the started camera (display 1280 by 720, zoom 1)
`resize(1/2, 720)` stores `halfWidth = 0`, `halfHeight = 360` and
`invZoom = 2560`; the corner `(+halfWidth, +halfHeight, 0) = (0, 360, 0)` is
mapped to a vector whose x is undefined (`0 * 0 / 0`), not to
`(0 * 2560, 360 * 2560, 0)`. -/
theorem C3_counterexample :
    startedEnv.g_State.isActive = true ∧
    (ResizeCamera (1 / 2) 720 startedEnv).g_Camera.halfWidth = some 0 ∧
    (ResizeCamera (1 / 2) 720 startedEnv).g_Camera.halfHeight = some 360 ∧
    (ResizeCamera (1 / 2) 720 startedEnv).g_Camera.invZoom = some 2560 ∧
    ScreenToWorld (ResizeCamera (1 / 2) 720 startedEnv)
      ⟨fmul (some 1) (ResizeCamera (1 / 2) 720 startedEnv).g_Camera.halfWidth,
       fmul (some 1) (ResizeCamera (1 / 2) 720 startedEnv).g_Camera.halfHeight, some 0⟩ =
      some ⟨none, some 921600, some 0⟩ ∧
    ScreenToWorld (ResizeCamera (1 / 2) 720 startedEnv)
      ⟨fmul (some 1) (ResizeCamera (1 / 2) 720 startedEnv).g_Camera.halfWidth,
       fmul (some 1) (ResizeCamera (1 / 2) 720 startedEnv).g_Camera.halfHeight, some 0⟩ ≠
    some ⟨fmul (fmul (some 1) (ResizeCamera (1 / 2) 720 startedEnv).g_Camera.halfWidth)
            (ResizeCamera (1 / 2) 720 startedEnv).g_Camera.invZoom,
          fmul (fmul (some 1) (ResizeCamera (1 / 2) 720 startedEnv).g_Camera.halfHeight)
            (ResizeCamera (1 / 2) 720 startedEnv).g_Camera.invZoom, some 0⟩ := by
  have ht : Int.tdiv 1 2 = 0 := by decide
  have hW : (ResizeCamera (1 / 2) 720 startedEnv).g_Camera.halfWidth = some 0 := by
    norm_num [ResizeCamera, Resize, intToFloat, floatToInt, INT_MIN, INT_MAX, ht]
  have hH : (ResizeCamera (1 / 2) 720 startedEnv).g_Camera.halfHeight = some 360 := by
    norm_num [ResizeCamera, Resize, intToFloat, floatToInt, INT_MIN, INT_MAX]
  have hZ : (ResizeCamera (1 / 2) 720 startedEnv).g_Camera.invZoom = some 2560 := by
    norm_num [ResizeCamera, Resize, startedEnv, InitCamera, Env.initial, unitScene, unitObject,
      Vector3.ofRat, fdiv_some]
  have hA : (ResizeCamera (1 / 2) 720 startedEnv).g_State.isActive = true := rfl
  refine ⟨rfl, hW, hH, hZ, ?_, ?_⟩
  · unfold ScreenToWorld
    rw [hA, hW, hH, hZ]
    norm_num [remap, fdiv_some]
  · unfold ScreenToWorld
    rw [hA, hW, hH, hZ]
    norm_num [remap, fdiv_some]
    intro h
    cases h

/-- C4 (as amended): for every `low1 ≠ high1` and every `low2`, `high2`,
`remap(low1, low1, high1, low2, high2) = low2` and
`remap(high1, low1, high1, low2, high2) = high2`. -/
theorem C4_remap_boundary (low1 high1 low2 high2 : ℚ) (hne : low1 ≠ high1) :
    remap (some low1) (some low1) (some high1) (some low2) (some high2) = some low2 ∧
    remap (some high1) (some low1) (some high1) (some low2) (some high2) = some high2 := by
  have h : high1 - low1 ≠ 0 := fun h0 => hne (by linarith)
  constructor
  · simp [remap, fdiv_some_of_ne _ _ h]
  · simp only [remap, fsub_some, fmul_some, fdiv_some_of_ne _ _ h, fadd_some]
    congr 1
    field_simp

/-- Witness for C4: the range `[0, 10]` mapped to `[3, 7]`. -/
theorem C4_remap_boundary_witness :
    (0 : ℚ) ≠ 10 ∧
    remap (some 0) (some 0) (some 10) (some 3) (some 7) = some 3 ∧
    remap (some 10) (some 0) (some 10) (some 3) (some 7) = some 7 :=
  ⟨by norm_num, C4_remap_boundary 0 10 3 7 (by norm_num)⟩

/-- C4 (counterexample): with `low1 = high1 = 5`, `low2 = 0`, `high2 = 1` the
call `remap(5, 5, 5, 0, 1)` divides `0 * 1` by `0`: its result is undefined,
neither `low2` nor `high2`. -/
theorem C4_counterexample :
    remap (some 5) (some 5) (some 5) (some 0) (some 1) = none ∧
    ¬ (remap (some 5) (some 5) (some 5) (some 0) (some 1) = some 0 ∧
       remap (some 5) (some 5) (some 5) (some 0) (some 1) = some 1) := by
  have h : remap (some 5) (some 5) (some 5) (some 0) (some 1) = none := by
    simp [remap, fdiv_some]
  refine ⟨h, ?_⟩
  rw [h]
  simp

/-! ## C5: the aspect factor -/

/-- A window width beyond the range of `int`: `resize(3000000000, 720)` on the
started camera computes `aspect = min(3000000000 / 1280, 720 / 720) = 1` and
then stores the converted width `INT_MIN`, with half-extent `INT_MIN / 2`. -/
theorem ResizeCamera_width_out_of_range :
    (ResizeCamera 3000000000 720 startedEnv).g_Camera.windowWidth = some (-2147483648) ∧
    (ResizeCamera 3000000000 720 startedEnv).g_Camera.halfWidth = some (-1073741824) ∧
    (ResizeCamera 3000000000 720 startedEnv).g_Camera.aspect = some 1 := by
  refine ⟨?_, ?_, ?_⟩
  · norm_num [ResizeCamera, Resize, intToFloat, floatToInt, INT_MIN, INT_MAX]
  · norm_num [ResizeCamera, Resize, intToFloat, floatToInt, INT_MIN, INT_MAX]
  · norm_num [ResizeCamera, Resize, startedEnv, InitCamera, Env.initial, fdiv_some]

/-- A reference display of width zero: the horizontal ratio is a division by
zero, `fmin` returns the vertical ratio, and `resize(1280, 720)` stores
`aspect = 720 / 720 = 1`. -/
theorem ResizeCamera_zero_display_width :
    (ResizeCamera 1280 720 (AppInitializeMyExtension 0 720 startedEnv)).g_Camera.aspect
      = some 1 := by
  have h720 : Int.toNat 720 = 720 := rfl
  norm_num [ResizeCamera, Resize, AppInitializeMyExtension, startedEnv, InitCamera, Env.initial,
    fdiv_some, h720]


/-- Rotating by the identity quaternion leaves a vector with defined
components unchanged. -/
theorem Rotate_identity (x y z : ℚ) :
    Rotate Quat.identity (Vector3.ofRat x y z) = Vector3.ofRat x y z := by
  simp [Rotate, Quat.identity, Quat.ofRat, Vector3.ofRat]

theorem Conjugate_identity : Conjugate Quat.identity = Quat.identity := by
  simp [Conjugate, Quat.identity, Quat.ofRat]

/-- C6: for an active camera and an instance with local position `p`, world
position `t`, world scale `s` and world rotation `q`, `local_to_world` returns
`rotate(q, p ⊙ s) + t`; for `p = (1,0,0)`, `t = (0,0,0)`, `s = (1,1,1)` and the
identity rotation the result is `(1,0,0)`. -/
theorem C6_local_to_world (e : Env) (i : HInstance) (hact : e.g_State.isActive = true) :
    LocalToWorld e i =
      some (Vector3.add
        (Rotate (e.scene i).worldRotation
          (Vector3.hmul (e.scene i).position (e.scene i).worldScale))
        (e.scene i).worldPosition) ∧
    LocalToWorld
      { e with scene := constScene { unitObject with position := Vector3.ofRat 1 0 0 } } i =
      some (Vector3.ofRat 1 0 0) := by
  constructor
  · simp [LocalToWorld, hact, Vector3.add, Vector3.hmul]
  · simp [LocalToWorld, hact, constScene, unitObject, Vector3.ofRat, Rotate, Quat.identity,
      Quat.ofRat]

/-- Witness for C6: handle `2` in the started camera's unit scene, whose local
position is the origin. -/
theorem C6_local_to_world_witness :
    startedEnv.g_State.isActive = true ∧
    LocalToWorld startedEnv (some 2) =
      some (Vector3.add
        (Rotate (startedEnv.scene (some 2)).worldRotation
          (Vector3.hmul (startedEnv.scene (some 2)).position
            (startedEnv.scene (some 2)).worldScale))
        (startedEnv.scene (some 2)).worldPosition) :=
  ⟨rfl, (C6_local_to_world startedEnv (some 2) rfl).1⟩

/-- C7: for an active camera and an instance whose local position `p`, world
position `t`, world scale `s` and world rotation `q` are numbers, with every
component of `s` non-zero, `world_to_local` returns
`rotate(conjugate(q), p + t) ⊘ s`, a vector of defined numbers; for
`p = (1,0,0)`, `t = (0,0,0)`, `s = (1,1,1)` and the identity rotation the result
is `(1,0,0)`. -/
theorem C7_world_to_local (e : Env) (i : HInstance)
    (px py pz tx ty tz sx sy sz qx qy qz qw : ℚ)
    (hact : e.g_State.isActive = true)
    (hp : (e.scene i).position = Vector3.ofRat px py pz)
    (ht : (e.scene i).worldPosition = Vector3.ofRat tx ty tz)
    (hs : (e.scene i).worldScale = Vector3.ofRat sx sy sz)
    (hq : (e.scene i).worldRotation = Quat.ofRat qx qy qz qw)
    (hsx : sx ≠ 0) (hsy : sy ≠ 0) (hsz : sz ≠ 0) :
    WorldToLocal e i =
      some (Vector3.hdiv
        (Rotate (Conjugate (Quat.ofRat qx qy qz qw))
          (Vector3.add (Vector3.ofRat px py pz) (Vector3.ofRat tx ty tz)))
        (Vector3.ofRat sx sy sz)) ∧
    (Vector3.hdiv
        (Rotate (Conjugate (Quat.ofRat qx qy qz qw))
          (Vector3.add (Vector3.ofRat px py pz) (Vector3.ofRat tx ty tz)))
        (Vector3.ofRat sx sy sz)).isDefined = true ∧
    WorldToLocal
      { e with scene := constScene { unitObject with position := Vector3.ofRat 1 0 0 } } i =
      some (Vector3.ofRat 1 0 0) := by
  refine ⟨?_, ?_, ?_⟩
  · simp [WorldToLocal, hact, hp, ht, hs, hq, Vector3.add, Vector3.hdiv]
  · simp [Vector3.isDefined, Vector3.hdiv, Vector3.add, Rotate, Conjugate, Vector3.ofRat,
      Quat.ofRat, fdiv_some, hsx, hsy, hsz]
  · simp [WorldToLocal, hact, constScene, unitObject, Vector3.ofRat, Rotate, Conjugate,
      Quat.identity, Quat.ofRat, fdiv_some]

/-- Witness for C7: handle `2` in the started camera's unit scene. -/
theorem C7_world_to_local_witness :
    startedEnv.g_State.isActive = true ∧ (1 : ℚ) ≠ 0 ∧
    WorldToLocal startedEnv (some 2) =
      some (Vector3.hdiv
        (Rotate (Conjugate (Quat.ofRat 0 0 0 1))
          (Vector3.add (Vector3.ofRat 0 0 0) (Vector3.ofRat 0 0 0)))
        (Vector3.ofRat 1 1 1)) :=
  ⟨rfl, one_ne_zero,
    (C7_world_to_local startedEnv (some 2) 0 0 0 0 0 0 1 1 1 0 0 0 1 rfl rfl rfl rfl rfl
      one_ne_zero one_ne_zero one_ne_zero).1⟩

/-- C8: `world_to_local` does not undo `local_to_world`.  For the instance with
identity rotation, scale `(1,1,1)`, world position `t = (1,0,0)` and local
position `p = (0,0,0)`, `local_to_world` gives `x = (1,0,0)`, and
`world_to_local` of the same instance moved to local position `x` gives
`(2,0,0)`, not `p`. -/
theorem C8_world_to_local_not_inverse :
    ∃ (e : Env) (i : HInstance) (p x : Vector3) (qx qy qz qw sx sy sz tx ty tz : ℚ),
      e.g_State.isActive = true ∧
      (e.scene i).worldRotation = Quat.ofRat qx qy qz qw ∧ quatNormSq qx qy qz qw = 1 ∧
      (e.scene i).worldScale = Vector3.ofRat sx sy sz ∧ sx ≠ 0 ∧ sy ≠ 0 ∧ sz ≠ 0 ∧
      (e.scene i).worldPosition = Vector3.ofRat tx ty tz ∧
      (e.scene i).position = p ∧
      (qx, qy, qz, qw) = (0, 0, 0, 1) ∧ (sx, sy, sz) = (1, 1, 1) ∧ (tx, ty, tz) = (1, 0, 0) ∧
      p = Vector3.ofRat 0 0 0 ∧
      LocalToWorld e i = some x ∧
      x = Vector3.add
        (Rotate (Quat.ofRat qx qy qz qw) (Vector3.hmul p (Vector3.ofRat sx sy sz)))
        (Vector3.ofRat tx ty tz) ∧
      WorldToLocal { e with scene := SetPosition e.scene i x } i =
        some (Vector3.hdiv
          (Rotate (Conjugate (Quat.ofRat qx qy qz qw)) (Vector3.add x (Vector3.ofRat tx ty tz)))
          (Vector3.ofRat sx sy sz)) ∧
      WorldToLocal { e with scene := SetPosition e.scene i x } i = some (Vector3.ofRat 2 0 0) ∧
      WorldToLocal { e with scene := SetPosition e.scene i x } i ≠ some p := by
  refine ⟨{ startedEnv with
            scene := constScene { unitObject with worldPosition := Vector3.ofRat 1 0 0 } },
    some 2, Vector3.ofRat 0 0 0, Vector3.ofRat 1 0 0, 0, 0, 0, 1, 1, 1, 1, 1, 0, 0,
    rfl, rfl, ?_, rfl, one_ne_zero, one_ne_zero, one_ne_zero, rfl, rfl, rfl, rfl, rfl, rfl,
    ?_, ?_, ?_, ?_, ?_⟩
  · norm_num [quatNormSq]
  · have ha : startedEnv.g_State.isActive = true := rfl
    simp [LocalToWorld, ha, constScene, unitObject, Vector3.ofRat, Rotate, Quat.identity,
      Quat.ofRat]
  · simp [Vector3.add, Vector3.hmul, Vector3.ofRat, Rotate, Quat.ofRat]
  · have ha : startedEnv.g_State.isActive = true := rfl
    simp [WorldToLocal, ha, SetPosition, constScene, unitObject, Vector3.ofRat, Rotate,
      Conjugate, Quat.identity, Quat.ofRat, Vector3.add, Vector3.hdiv]
  · have ha : startedEnv.g_State.isActive = true := rfl
    norm_num [WorldToLocal, ha, SetPosition, constScene, unitObject, Vector3.ofRat, Rotate,
      Conjugate, Quat.identity, Quat.ofRat, fdiv_some]
  · have ha : startedEnv.g_State.isActive = true := rfl
    norm_num [WorldToLocal, ha, SetPosition, constScene, unitObject, Vector3.ofRat, Rotate,
      Conjugate, Quat.identity, Quat.ofRat, fdiv_some]

/-! ## C9 and C10: the effects of `zoom` and `resize` -/

theorem SetScale_scale (scene : Scene) (i : HInstance) (v : Vector3) :
    (SetScale scene i v i).scale = v := by
  simp [SetScale]

/-- C9: `zoom(z)` stores `zoom = z` and sets the world target's scale to
`(z, z, z)`; aspect, inverse zoom, window size, half-extents, reference display
size, both object handles and both flags are unchanged. -/
theorem C9_zoom_effects (e : Env) (z : ℚ) :
    (Zoom z e).g_Camera.zoom = some z ∧
    ((Zoom z e).scene (Zoom z e).g_Camera.worldTarget).scale = ⟨some z, some z, some z⟩ ∧
    (Zoom z e).g_Camera.aspect = e.g_Camera.aspect ∧
    (Zoom z e).g_Camera.invZoom = e.g_Camera.invZoom ∧
    (Zoom z e).g_Camera.windowWidth = e.g_Camera.windowWidth ∧
    (Zoom z e).g_Camera.windowHeight = e.g_Camera.windowHeight ∧
    (Zoom z e).g_Camera.halfWidth = e.g_Camera.halfWidth ∧
    (Zoom z e).g_Camera.halfHeight = e.g_Camera.halfHeight ∧
    (Zoom z e).g_Camera.displayWidth = e.g_Camera.displayWidth ∧
    (Zoom z e).g_Camera.displayHeight = e.g_Camera.displayHeight ∧
    (Zoom z e).g_Camera.mainCam = e.g_Camera.mainCam ∧
    (Zoom z e).g_Camera.worldTarget = e.g_Camera.worldTarget ∧
    (Zoom z e).g_State.isActive = e.g_State.isActive ∧
    (Zoom z e).g_State.isSuspend = e.g_State.isSuspend := by
  refine ⟨rfl, ?_, rfl, rfl, rfl, rfl, rfl, rfl, rfl, rfl, rfl, rfl, rfl, rfl⟩
  exact SetScale_scale _ _ _

/-- With an undefined value the remap is undefined. -/
theorem remap_none_value (l₁ h₁ l₂ h₂ : Flt) : remap none l₁ h₁ l₂ h₂ = none := by
  simp [remap]

/-- One coordinate of `screen_to_world`: the remap from `[-hw, hw]` to
`[-invZoom * hw, invZoom * hw]` is the product with `invZoom`, for `hw ≠ 0`. -/
theorem remap_halfExtent (v k : Flt) (hw : ℚ) (hne : hw ≠ 0) :
    remap v (fneg (some hw)) (some hw) (fneg (fmul k (some hw))) (fmul k (some hw)) =
      fmul v k := by
  cases v with
  | none => simp [remap_none_value]
  | some x =>
    cases k with
    | none =>
      rw [fmul_none_left, fmul_none_right]
      exact remap_none_target _ _ _
    | some c => simpa using remap_symmetric x hw c hne

/-- C11: for an active camera whose stored half-extents are numbers other than
zero, `screen_to_world` maps every point `(x, y, z)` to
`(x * invZoom, y * invZoom, z)`; the half-extents cancel, so two such cameras
with the same inverse zoom give the same result whatever their window
sizes. -/
theorem C11_screen_to_world_scaling (e e₂ : Env) (p : Vector3) (hw hh hw₂ hh₂ : ℚ)
    (hact : e.g_State.isActive = true)
    (hW : e.g_Camera.halfWidth = some hw) (hH : e.g_Camera.halfHeight = some hh)
    (hw0 : hw ≠ 0) (hh0 : hh ≠ 0)
    (hact₂ : e₂.g_State.isActive = true)
    (hW₂ : e₂.g_Camera.halfWidth = some hw₂) (hH₂ : e₂.g_Camera.halfHeight = some hh₂)
    (hw0₂ : hw₂ ≠ 0) (hh0₂ : hh₂ ≠ 0)
    (hinv : e₂.g_Camera.invZoom = e.g_Camera.invZoom) :
    ScreenToWorld e p =
      some ⟨fmul p.x e.g_Camera.invZoom, fmul p.y e.g_Camera.invZoom, p.z⟩ ∧
    ScreenToWorld e₂ p = ScreenToWorld e p := by
  have key : ∀ (s : Env) (a b : ℚ), s.g_State.isActive = true →
      s.g_Camera.halfWidth = some a → s.g_Camera.halfHeight = some b → a ≠ 0 → b ≠ 0 →
      ScreenToWorld s p =
        some ⟨fmul p.x s.g_Camera.invZoom, fmul p.y s.g_Camera.invZoom, p.z⟩ := by
    intro s a b ha hA hB ha0 hb0
    unfold ScreenToWorld
    rw [ha, hA, hB]
    have hx := remap_halfExtent p.x s.g_Camera.invZoom a ha0
    have hy := remap_halfExtent p.y s.g_Camera.invZoom b hb0
    simp only [fneg_some] at hx hy
    simp [hx, hy]
  constructor
  · exact key e hw hh hact hW hH hw0 hh0
  · rw [key e hw hh hact hW hH hw0 hh0, key e₂ hw₂ hh₂ hact₂ hW₂ hH₂ hw0₂ hh0₂, hinv]

/-- Witness for C11: the started camera (window 1280 by 720) and the same
camera after `resize(1280, 1000)` both have inverse zoom `1`. -/
theorem C11_screen_to_world_scaling_witness :
    startedEnv.g_State.isActive = true ∧
    startedEnv.g_Camera.halfWidth = some 640 ∧ startedEnv.g_Camera.halfHeight = some 360 ∧
    (640 : ℚ) ≠ 0 ∧ (360 : ℚ) ≠ 0 ∧
    (ResizeCamera 1280 1000 startedEnv).g_Camera.halfHeight = some 500 ∧ (500 : ℚ) ≠ 0 ∧
    (ResizeCamera 1280 1000 startedEnv).g_Camera.invZoom = startedEnv.g_Camera.invZoom ∧
    ScreenToWorld startedEnv (Vector3.ofRat 10 20 30) =
      some ⟨fmul (Vector3.ofRat 10 20 30).x startedEnv.g_Camera.invZoom,
        fmul (Vector3.ofRat 10 20 30).y startedEnv.g_Camera.invZoom,
        (Vector3.ofRat 10 20 30).z⟩ ∧
    ScreenToWorld (ResizeCamera 1280 1000 startedEnv) (Vector3.ofRat 10 20 30) =
      ScreenToWorld startedEnv (Vector3.ofRat 10 20 30) :=
  have hW : startedEnv.g_Camera.halfWidth = some 640 := by
    norm_num [startedEnv, InitCamera, Resize, intToFloat, floatToInt, INT_MIN, INT_MAX]
  have hH : startedEnv.g_Camera.halfHeight = some 360 := by
    norm_num [startedEnv, InitCamera, Resize, intToFloat, floatToInt, INT_MIN, INT_MAX]
  have hW₂ : (ResizeCamera 1280 1000 startedEnv).g_Camera.halfWidth = some 640 := by
    norm_num [ResizeCamera, Resize, intToFloat, floatToInt, INT_MIN, INT_MAX]
  have hH₂ : (ResizeCamera 1280 1000 startedEnv).g_Camera.halfHeight = some 500 := by
    norm_num [ResizeCamera, Resize, intToFloat, floatToInt, INT_MIN, INT_MAX]
  have hinv : (ResizeCamera 1280 1000 startedEnv).g_Camera.invZoom
      = startedEnv.g_Camera.invZoom := by
    norm_num [ResizeCamera, Resize, startedEnv, InitCamera, Env.initial, unitScene, unitObject,
      Vector3.ofRat, fdiv_some]
  ⟨rfl, hW, hH, by norm_num, by norm_num, hH₂, by norm_num, hinv,
    C11_screen_to_world_scaling startedEnv (ResizeCamera 1280 1000 startedEnv)
      (Vector3.ofRat 10 20 30) 640 360 640 500 rfl hW hH (by norm_num) (by norm_num) rfl
      hW₂ hH₂ (by norm_num) (by norm_num) hinv⟩

/-! ## C12: `bocokiddo.get_world_position` against `bococam.world_to_local` -/

/-- C12: for every instance `get_world_position` returns
`rotate(conjugate(rotation), localPosition + worldPosition) ⊘ scale`, which is
the vector that `world_to_local` returns for the same instance when the camera
is active; `world_to_local` returns `nil` when the camera is inactive, while
`get_world_position` does not read the camera state and returns the vector in
either case. -/
theorem C12_get_world_position_refines (e : Env) (i : HInstance) :
    GetWorldPosition e.scene i =
      Vector3.hdiv
        (Rotate (Conjugate (e.scene i).worldRotation)
          (Vector3.add (e.scene i).position (e.scene i).worldPosition))
        (e.scene i).worldScale ∧
    WorldToLocal e i =
      (if e.g_State.isActive then some (GetWorldPosition e.scene i) else none) ∧
    WorldToLocal { e with g_State := { e.g_State with isActive := true } } i =
      some (GetWorldPosition e.scene i) ∧
    WorldToLocal { e with g_State := { e.g_State with isActive := false } } i = none ∧
    GetWorldPosition ({ e with g_State := { e.g_State with isActive := false } } : Env).scene i =
      GetWorldPosition ({ e with g_State := { e.g_State with isActive := true } } : Env).scene
        i := by
  refine ⟨rfl, ?_, rfl, rfl, rfl⟩
  unfold WorldToLocal GetWorldPosition
  cases e.g_State.isActive <;> rfl

end BocoCam
